import Mathlib

/-!
Verification development for the amber/jantar server-side rendering core:
the hook registry (`hooks.go`), the template pipeline (`template.go`:
`loadTemplates`, `getTemplate`, `RenderTemplate`, the `since` and `paginate`
helper functions) and the validation helpers (`Required`, `Min`, `Max`,
`MinMax`).  Go machine integers are modelled as `Int` (or `Nat` where the
source value is known non-negative), Go maps as association lists or
functions, and the embedded `html/template` engine as abstract parse/render
functions supplied as parameters.
-/

namespace Amber

/-! ## Hook registry (hooks.go)

`hook` stores a declared signature (`signiture`, spelled as in the source)
and the ordered handler list.  The Go `map[int]*hook` is modelled as a
function `Int → Option (Hook τ ν)`.  Runtime types of Go (`reflect.Type`)
are an abstract type `τ`; a handler value has type `ν` and its runtime type
is obtained by an abstract `typeOf : ν → τ`; `reflect.Type.AssignableTo`
is an abstract `assignable : τ → τ → Bool` and `Kind() == reflect.Func`
an abstract `isFunc : τ → Bool`. -/

inductive HookErr where
  | duplicateID
  | unknownID
  | invalidHandler
deriving DecidableEq, Repr

structure Hook (τ ν : Type) where
  signiture : τ
  handler : List ν

structure Hooks (τ ν : Type) where
  list : Int → Option (Hook τ ν)

/-- The empty registry (a `nil`/empty Go map). -/
def Hooks.empty (τ ν : Type) : Hooks τ ν := ⟨fun _ => none⟩

/-- Update one key of the registry map. -/
def hUpdate {τ ν : Type} (m : Int → Option (Hook τ ν)) (id : Int) (hk : Hook τ ν) :
    Int → Option (Hook τ ν) :=
  fun k => if k = id then some hk else m k

/-- `registerHook` from hooks.go: duplicate check, then the
`Kind() != reflect.Func` check, then insertion with an empty handler list.
Returns the Go error (if any) together with the updated registry. -/
def registerHook {τ ν : Type} (isFunc : τ → Bool) (hs : Hooks τ ν)
    (hookID : Int) (signiture : τ) : Option HookErr × Hooks τ ν :=
  match hs.list hookID with
  | some _ => (some HookErr.duplicateID, hs)
  | none =>
    if !isFunc signiture then (some HookErr.invalidHandler, hs)
    else (none, ⟨hUpdate hs.list hookID ⟨signiture, []⟩⟩)

/-- `getHooks` from hooks.go: `nil` (here `[]`) for an unknown id,
otherwise the stored handler slice. -/
def getHooks {τ ν : Type} (hs : Hooks τ ν) (hookID : Int) : List ν :=
  match hs.list hookID with
  | none => []
  | some hk => hk.handler

/-- `AddHook` from hooks.go: unknown id fails with `ErrHookUnknownID`;
a handler whose runtime type is not assignable to the declared signature
fails with `ErrHookInvalidHandler`; otherwise the handler is appended. -/
def AddHook {τ ν : Type} (typeOf : ν → τ) (assignable : τ → τ → Bool)
    (hs : Hooks τ ν) (hookID : Int) (handler : ν) : Option HookErr × Hooks τ ν :=
  match hs.list hookID with
  | none => (some HookErr.unknownID, hs)
  | some hk =>
    if !assignable (typeOf handler) hk.signiture then
      (some HookErr.invalidHandler, hs)
    else
      (none, ⟨hUpdate hs.list hookID ⟨hk.signiture, hk.handler ++ [handler]⟩⟩)

/-- Attach a whole list of handlers one after the other (each step is one
`AddHook` call; the Go error of each call is discarded here, matching a
caller that attaches a sequence of handlers). -/
def attachAll {τ ν : Type} (typeOf : ν → τ) (assignable : τ → τ → Bool)
    (hs : Hooks τ ν) (hookID : Int) (l : List ν) : Hooks τ ν :=
  l.foldl (fun s h => (AddHook typeOf assignable s hookID h).2) hs

/-! ## Template helper functions (template.go) -/

/-- The `since` template helper from template.go, as a function of the
elapsed whole seconds (`int(time.Since(t).Seconds())`, non-negative for a
past timestamp). -/
def since (seconds : Nat) : String :=
  if seconds < 60 then "< 1 minute ago"
  else if seconds < 60 * 2 then "1 minute ago"
  else if seconds < 60 * 60 then toString (seconds / 60) ++ " minutes ago"
  else if seconds < 60 * 60 * 2 then "1 hour ago"
  else if seconds < 60 * 60 * 24 then toString (seconds / (60 * 60)) ++ " hours ago"
  else if seconds < 60 * 60 * 24 * 2 then "1 day ago"
  else if seconds < 60 * 60 * 24 * 30 then toString (seconds / (60 * 60 * 24)) ++ " days ago"
  else if seconds < 60 * 60 * 24 * 30 * 2 then "1 month ago"
  else if seconds < 60 * 60 * 24 * 30 * 12 then toString (seconds / (60 * 60 * 24 * 30)) ++ " months ago"
  else "> 1 year ago"

/-- The loop window of `paginate`: `for i := curPage-offset; i < curPage+offset+1; i++`. -/
def pageWindow (curPage offset : Int) : List Int :=
  (List.range (2 * offset + 1).toNat).map (fun k => curPage - offset + k)

/-- The `paginate` template helper from template.go, building the same
HTML string (Go `fmt.Sprintf` calls expanded into concatenations). -/
def paginate (curPage nPages offset : Int) (url : String) : String :=
  if nPages < 2 then ""
  else
    let result := "<ul class='pagination'>"
    let result := if curPage > 1 then
        result ++ "<li><a href='" ++ url ++ "/page/first'>&laquo;First</a></li><li><a href='"
          ++ url ++ "/page/" ++ toString (curPage - 1) ++ "'>&laquo;</a></li>"
      else result
    let result := if curPage - offset > 1 then result ++ "<li><span>...</span></li>" else result
    let result := (pageWindow curPage offset).foldl (fun r i =>
        if i > 0 && i ≤ nPages then
          if i == curPage then
            r ++ "<li class='active'><a href='" ++ url ++ "/page/" ++ toString i ++ "'>"
              ++ toString i ++ "</a></li>"
          else
            r ++ "<li><a href='" ++ url ++ "/page/" ++ toString i ++ "'>"
              ++ toString i ++ "</a></li>"
        else r) result
    let result := if curPage + offset < nPages then result ++ "<li><span>...</span></li>" else result
    let result := if curPage != nPages then
        result ++ "<li><a href='" ++ url ++ "/page/" ++ toString (curPage + 1)
          ++ "'>&raquo;</a></li><li><a href='" ++ url ++ "/page/last'>Last&raquo;</a></li>"
      else result
    result ++ "</ul>"

/-! ## Validation helpers (validation.go part of the sources)

A Go `interface{}` argument is modelled by `Vobj`: the `nil` interface,
the supported dynamic types (`int`, `string`, `time.Time` abstracted by
its `IsZero()` bit, slices abstracted by their length) and `vother` for
every other non-nil dynamic type.  `len` of a Go string is its byte
length, hence `String.utf8ByteSize`. -/

inductive Vobj where
  | vnil
  | vint (n : Int)
  | vstr (s : String)
  | vtime (isZero : Bool)
  | vslice (len : Nat)
  | vother
deriving DecidableEq, Repr

structure ValidationResult where
  valid : Bool
  name : String
  index : Int
deriving DecidableEq, Repr

structure Validation where
  HasErrors : Bool
  errors : String → List String

/-- `addValidationResult` from the source: builds a result with index `-1`;
for an invalid result it sets `HasErrors`, appends the message to
`errors[name]` and records the message index.  The Go
`map[string][]string` is modelled as a total function (a missing key of a
Go map reads as `nil`). -/
def addValidationResult (v : Validation) (name : String) (valid : Bool)
    (message : String) : ValidationResult × Validation :=
  if valid then (⟨true, name, -1⟩, v)
  else
    let errs := v.errors name ++ [message]
    (⟨false, name, (errs.length : Int) - 1⟩,
      ⟨true, fun k => if k = name then errs else v.errors k⟩)

/-- `Validation.Required` from the source.  Note the `time.Time` branch:
`valid` is `value.IsZero()` itself. -/
def Validation.Required (v : Validation) (name : String) (obj : Vobj) :
    Option ValidationResult × Validation :=
  let msg := "Required"
  match obj with
  | .vnil => let r := addValidationResult v name false msg; (some r.1, r.2)
  | .vint n => let r := addValidationResult v name (n != 0) msg; (some r.1, r.2)
  | .vstr s => let r := addValidationResult v name (s.utf8ByteSize > 0) msg; (some r.1, r.2)
  | .vtime z => let r := addValidationResult v name z msg; (some r.1, r.2)
  | .vslice l => let r := addValidationResult v name (l > 0) msg; (some r.1, r.2)
  | .vother => (none, v)

/-- `Validation.Min` from the source: `nil` is invalid; `int`, `string`
and slices are compared against the bound; any other dynamic type falls
through and returns `nil` with no recorded result. -/
def Validation.Min (v : Validation) (name : String) (obj : Vobj) (min : Int) :
    Option ValidationResult × Validation :=
  let msg := "Must be larger than " ++ toString min
  match obj with
  | .vnil => let r := addValidationResult v name false msg; (some r.1, r.2)
  | .vint n => let r := addValidationResult v name (n ≥ min) msg; (some r.1, r.2)
  | .vstr s => let r := addValidationResult v name ((s.utf8ByteSize : Int) ≥ min) msg; (some r.1, r.2)
  | .vslice l => let r := addValidationResult v name ((l : Int) ≥ min) msg; (some r.1, r.2)
  | _ => (none, v)

/-- `Validation.Max` from the source, symmetric to `Min`. -/
def Validation.Max (v : Validation) (name : String) (obj : Vobj) (max : Int) :
    Option ValidationResult × Validation :=
  let msg := "Must be smaller than " ++ toString max
  match obj with
  | .vnil => let r := addValidationResult v name false msg; (some r.1, r.2)
  | .vint n => let r := addValidationResult v name (n ≤ max) msg; (some r.1, r.2)
  | .vstr s => let r := addValidationResult v name ((s.utf8ByteSize : Int) ≤ max) msg; (some r.1, r.2)
  | .vslice l => let r := addValidationResult v name ((l : Int) ≤ max) msg; (some r.1, r.2)
  | _ => (none, v)

/-- `Validation.MinMax` from the source. -/
def Validation.MinMax (v : Validation) (name : String) (obj : Vobj)
    (min max : Int) : Option ValidationResult × Validation :=
  let msg := "Must be larger " ++ toString min ++ " and smaller " ++ toString max
  match obj with
  | .vnil => let r := addValidationResult v name false msg; (some r.1, r.2)
  | .vint n => let r := addValidationResult v name (n ≥ min && n ≤ max) msg; (some r.1, r.2)
  | .vstr s =>
    let r := addValidationResult v name
      ((s.utf8ByteSize : Int) ≥ min && (s.utf8ByteSize : Int) ≤ max) msg
    (some r.1, r.2)
  | .vslice l =>
    let r := addValidationResult v name ((l : Int) ≥ min && (l : Int) ≤ max) msg
    (some r.1, r.2)
  | _ => (none, v)

/-- A non-nil object whose dynamic type is not `int`, `string` or a slice
(the types `Min`/`Max`/`MinMax` fall through on). -/
def unsupportedForBounds : Vobj → Bool
  | .vtime _ => true
  | .vother => true
  | _ => false

/-! ## Template pipeline (template.go)

The directory tree walked by `filepath.Walk` is an `FsNode` tree; `Walk`
visits a node, then (for a directory that was not skipped) its children in
list order, which matches `filepath.Walk`'s lexically sorted pre-order
when the children lists are sorted.  A file carries its base name, its
content and an optional read error (`ioutil.ReadFile` failing).

The embedded `html/template` engine is abstract: `parseRes content` is
`none` when `Parse` succeeds and `some e` for a parse error `e`, and
`renderRes content` is the result of `Execute(f, nil)` on the parsed
static fragment (its output string, or an execution error).  Errors are
plain `String`s, standing for Go `error` values. -/

inductive FsNode where
  | file (name content : String) (readErr : Option String)
  | dir (name : String) (children : List FsNode)
deriving Repr

def FsNode.name : FsNode → String
  | .file n _ _ => n
  | .dir n _ => n

/-- `strings.ToLower` (over the characters of the string). -/
def strLower (s : String) : String := ⟨s.data.map Char.toLower⟩

/-- Is the first character list a prefix of the second? -/
def prefixOfCL : List Char → List Char → Bool
  | [], _ => true
  | a :: as, l =>
    match l with
    | [] => false
    | b :: bs => (a == b) && prefixOfCL as bs

/-- `strings.HasPrefix s p`. -/
def strStartsWith (s p : String) : Bool := prefixOfCL p.data s.data

/-- `strings.HasSuffix s p`. -/
def strEndsWith (s p : String) : Bool := p.data.isSuffixOf s.data

/-- The Go slice `s[n:]` (paths here are ASCII, so bytes = characters). -/
def strDrop (s : String) (n : Nat) : String := ⟨s.data.drop n⟩

/-- `strings.Replace(s, "\\", "/", -1)`. -/
def backToSlash (s : String) : String :=
  ⟨s.data.map (fun c => if c = '\\' then '/' else c)⟩

/-- `strings.Replace(strings.ToLower(path), "\\", "/", -1)`. -/
def normPath (s : String) : String := backToSlash (strLower s)

/-- Occurrence of `pat` anywhere in `l`. -/
def hasSub : List Char → List Char → Bool
  | [], pat => pat.isEmpty
  | c :: t, pat => prefixOfCL pat (c :: t) || hasSub t pat

/-- `strings.Contains s pat`. -/
def containsSub (s pat : String) : Bool := hasSub s.data pat.data

/-- The mutable local state of one `loadTemplates` walk: the `templates`
and `staticTemplates` groups being built (`none` is the Go `nil` pointer;
a group is the list of `(name, parsed source)` fragments, later fragments
redefining earlier ones of the same name), the files created and written
by static pre-rendering, and the directories added to the watcher. -/
structure LoadState where
  templates : Option (List (String × String)) := none
  staticTemplates : Option (List (String × String)) := none
  written : List (String × String) := []
  watched : List String := []
deriving Repr

/-- The non-directory branch of the `filepath.Walk` callback in
`loadTemplates`: normalize the path, handle only `.html` files, read the
file, classify static vs normal, parse (static fragments additionally
get pre-rendered to `directory + "/_" + tmplName` unless their name
carries the `_` marker), applying the before-parse hooks to a normal
fragment's bytes first.  Any read, parse or execute error aborts. -/
def visitFile (parseRes : String → Option String)
    (renderRes : String → Except String String)
    (beforeParse : List (String → String → String))
    (rootDir rawPath name content : String) (readErr : Option String)
    (st : LoadState) : Except String LoadState :=
  let path := normPath rawPath
  if strEndsWith name ".html" then
    match readErr with
    | some e => .error e
    | none =>
      let static := strStartsWith path (rootDir ++ "/static/")
      let tmplName := strDrop path (rootDir.length + 1)
      if static then
        match parseRes content with
        | some e => .error e
        | none =>
          let st := { st with
            staticTemplates := some ((st.staticTemplates.getD []) ++ [(tmplName, content)]) }
          if !strStartsWith tmplName "_" && !containsSub tmplName "/_" then
            match renderRes content with
            | .error e => .error e
            | .ok out =>
              .ok { st with written := st.written ++ [(rootDir ++ "/_" ++ tmplName, out)] }
          else .ok st
      else
        let fdata := beforeParse.foldl (fun d h => h tmplName d) content
        match parseRes fdata with
        | some e => .error e
        | none =>
          .ok { st with templates := some ((st.templates.getD []) ++ [(tmplName, fdata)]) }
  else .ok st

mutual

/-- One node of the `filepath.Walk` traversal in `loadTemplates`.  A
directory whose name starts with `.` or equals `_static` returns
`filepath.SkipDir` (its subtree is neither watched nor read); every other
directory is watched and its children are visited in order. -/
def walkNode (parseRes : String → Option String)
    (renderRes : String → Except String String)
    (beforeParse : List (String → String → String))
    (rootDir path : String) (node : FsNode) (st : LoadState) :
    Except String LoadState :=
  match node with
  | .file name content readErr =>
    visitFile parseRes renderRes beforeParse rootDir path name content readErr st
  | .dir name children =>
    if strStartsWith name "." || name == "_static" then .ok st
    else
      walkList parseRes renderRes beforeParse rootDir path children
        { st with watched := st.watched ++ [normPath path] }

/-- Visit the children of a directory in order, stopping at the first
error (`filepath.Walk` aborts when the callback returns an error). -/
def walkList (parseRes : String → Option String)
    (renderRes : String → Except String String)
    (beforeParse : List (String → String → String))
    (rootDir dirPath : String) (nodes : List FsNode) (st : LoadState) :
    Except String LoadState :=
  match nodes with
  | [] => .ok st
  | n :: rest =>
    match walkNode parseRes renderRes beforeParse rootDir (dirPath ++ "/" ++ n.name) n st with
    | .error e => .error e
    | .ok st2 => walkList parseRes renderRes beforeParse rootDir dirPath rest st2
termination_by structural nodes

end

/-- The `TemplateManager` of template.go.  `Req` is the `*http.Request`
type and `A` the `map[string]interface{}` argument map, both abstract.
A compiled fragment is its `(name, source)` pair.  `beforeParse` and
`beforeRender` are the handler lists returned by
`getHooks TmBeforeParse` / `getHooks TmBeforeRender`; a before-render
handler receives the request, the resolved fragment and the argument map
(the `*TemplateManager` argument of the Go signature is the manager
itself and is left implicit here). -/
structure TemplateManager (Req A : Type) where
  directory : String
  tmplList : Option (List (String × String)) := none
  beforeParse : List (String → String → String) := []
  beforeRender : List (Req → (String × String) → A → A) := []

/-- `Template.Lookup` on a built group: the last fragment parsed under a
name defines it. -/
def lookupGroup (l : List (String × String)) (n : String) :
    Option (String × String) :=
  l.reverse.find? (fun p => p.1 == n)

/-- `getTemplate` from template.go: `nil` while no list is installed,
otherwise `tmplList.Lookup(strings.ToLower(name))`. -/
def getTemplate {Req A : Type} (tm : TemplateManager Req A) (name : String) :
    Option (String × String) :=
  match tm.tmplList with
  | none => none
  | some l => lookupGroup l (strLower name)

/-- `loadTemplates` from template.go (the watcher teardown/creation is
pure bookkeeping and not modelled): walk the directory tree from
`tm.directory`; on any error return it and leave `tm` untouched, on
success install the newly built normal group as `tmplList`. -/
def loadTemplates {Req A : Type} (parseRes : String → Option String)
    (renderRes : String → Except String String)
    (tm : TemplateManager Req A) (root : FsNode) :
    Except String Unit × TemplateManager Req A :=
  match walkNode parseRes renderRes tm.beforeParse tm.directory tm.directory root {} with
  | .error e => (.error e, tm)
  | .ok st => (.ok (), { tm with tmplList := st.templates })

/-- `RenderTemplate` from template.go: look the name up (failing with the
`can't find template` error), fold the before-render handlers over the
argument map in attach order, then execute the fragment; an execution
error is wrapped with its cause kept.  `exec` is the abstract
`Template.Execute`, returning the bytes written to `w`. -/
def RenderTemplate {Req A : Type} (exec : (String × String) → A → Except String String)
    (tm : TemplateManager Req A) (req : Req) (name : String) (args : A) :
    Except String String :=
  match getTemplate tm name with
  | none => .error ("can't find template '" ++ strLower name ++ "'")
  | some tmpl =>
    let args2 := tm.beforeRender.foldl (fun a h => h req tmpl a) args
    match exec tmpl args2 with
    | .error e => .error ("failed to render template. Reason: " ++ e)
    | .ok out => .ok out

/-! ## Concrete fixtures used by witnesses and counterexamples -/

/-- A registry with hook id 1 declared at signature `0` (types are `Nat`,
handlers are `(type, payload)` pairs). -/
def wHooks : Hooks Nat (Nat × Nat) :=
  (registerHook (fun _ => true) (Hooks.empty Nat (Nat × Nat)) 1 0).2

/-- A template root holding one static fragment `static/page.html`. -/
def c1fs : FsNode := .dir "views" [.dir "static" [.file "page.html" "hello" none]]

/-- A template root holding one static fragment `static/<sub>/<name>`. -/
def c1fsGen (sub name content : String) : FsNode :=
  .dir "views" [.dir "static" [.dir sub [.file name content none]]]

/-- The same root after one compilation: the generated `_static/<sub>/<name>`
output (poisoned with a read error, so any attempt to re-process it would
abort the walk) next to the original static fragment. -/
def c1fsSecond (sub name content generated : String) : FsNode :=
  .dir "views"
    [.dir "_static" [.dir sub [.file name generated (some "read error")]],
     .dir "static" [.dir sub [.file name content none]]]

/-- A manager with an installed set registering the fragment `a/b.html`. -/
def c3tm : TemplateManager Unit Unit :=
  { directory := "views", tmplList := some [("a/b.html", "x")] }

/-- A manager with no installed set yet. -/
def tmNone : TemplateManager Unit Unit := { directory := "views" }

/-- A manager with a previously installed compiled set. -/
def tmPre : TemplateManager Unit Unit :=
  { directory := "views", tmplList := some [("index.html", "old")] }

/-- A root whose only fragment fails to parse. -/
def fsBad : FsNode := .dir "views" [.file "bad.html" "BAD" none]

/-- A root whose only fragment parses fine. -/
def fsGood : FsNode := .dir "views" [.file "a.html" "A" none]

/-- A parser that rejects exactly the content `"BAD"`. -/
def parseBad : String → Option String :=
  fun c => if c == "BAD" then some "parse error" else none

/-- A manager with one fragment and two before-render handlers mutating a
`Nat`-valued argument map. -/
def tmR : TemplateManager Unit Nat :=
  { directory := "views", tmplList := some [("index.html", "src")],
    beforeRender := [fun _ _ a => a + 1, fun _ _ a => a * 2] }

/-- An executor rendering the fragment name and the argument value. -/
def execShow : (String × String) → Nat → Except String String :=
  fun t a => .ok (t.1 ++ "|" ++ toString a)

/-- An executor that always fails. -/
def execFail : (String × String) → Nat → Except String String :=
  fun _ _ => .error "boom"

/-- A fresh validation state. -/
def vW : Validation := ⟨false, fun _ => []⟩

/-! ## Helper lemmas -/

/-- After one successful `AddHook`, followed by any further successful
attachments, `getHooks` lists the handlers in attach order. -/
theorem attachAll_getHooks {τ ν : Type} (typeOf : ν → τ) (assignable : τ → τ → Bool)
    (id : Int) :
    ∀ (l : List ν) (hs : Hooks τ ν) (hk : Hook τ ν), hs.list id = some hk →
      (∀ h ∈ l, assignable (typeOf h) hk.signiture = true) →
      getHooks (attachAll typeOf assignable hs id l) id = getHooks hs id ++ l := by
  intro l
  induction l with
  | nil => intro hs hk _ _; simp [attachAll]
  | cons h t ih =>
    intro hs hk hdecl hok
    have hh : assignable (typeOf h) hk.signiture = true := hok h (by simp)
    have hstep : (AddHook typeOf assignable hs id h).2 =
        ⟨hUpdate hs.list id ⟨hk.signiture, hk.handler ++ [h]⟩⟩ := by
      simp [AddHook, hdecl, hh]
    have hdecl' : ((AddHook typeOf assignable hs id h).2).list id =
        some ⟨hk.signiture, hk.handler ++ [h]⟩ := by
      rw [hstep]; simp [hUpdate]
    have hrec := ih ((AddHook typeOf assignable hs id h).2) ⟨hk.signiture, hk.handler ++ [h]⟩
      hdecl' (fun x hx => hok x (by simp [hx]))
    have h1 : attachAll typeOf assignable hs id (h :: t) =
        attachAll typeOf assignable ((AddHook typeOf assignable hs id h).2) id t := by
      simp [attachAll]
    rw [h1, hrec]
    simp [getHooks, hdecl, hdecl']

/-- The template-not-found message and the wrapped execution-failure
message are never the same string (their first characters differ). -/
theorem notFound_ne_renderFail (s t : String) :
    ("can't find template '" ++ s ++ "'") ≠ ("failed to render template. Reason: " ++ t) := by
  intro h
  have hd : ("can't find template '" ++ s ++ "'").data.head?
      = ("failed to render template. Reason: " ++ t).data.head? := by rw [h]
  have h1 : ("can't find template '" ++ s ++ "'").data.head? = some 'c' := rfl
  have h2 : ("failed to render template. Reason: " ++ t).data.head? = some 'f' := rfl
  rw [h1, h2] at hd
  exact absurd hd (by decide)

/-- The characters of a concatenation. -/
theorem sdata_append (a b : String) : (a ++ b).data = a.data ++ b.data := rfl

/-- The walk's path normalization distributes over concatenation. -/
theorem normPath_append (a b : String) : normPath (a ++ b) = normPath a ++ normPath b := by
  apply String.ext
  simp [normPath, strLower, backToSlash, sdata_append]

/-! ## Claims -/

/-- Claim C4: `AddHook` fails with the unknown-hook error when the id was
never declared; for a declared id, a handler whose runtime type is not
assignable to the declared signature fails with the signature-mismatch
error (`ErrHookInvalidHandler`) and the handler list is left unchanged;
on success the handler is appended after all previously attached
handlers. -/
theorem addHook_spec {τ ν : Type} (typeOf : ν → τ) (assignable : τ → τ → Bool)
    (hs : Hooks τ ν) (id : Int) (handler : ν) :
    (hs.list id = none →
      AddHook typeOf assignable hs id handler = (some HookErr.unknownID, hs)) ∧
    (∀ hk, hs.list id = some hk → assignable (typeOf handler) hk.signiture = false →
      AddHook typeOf assignable hs id handler = (some HookErr.invalidHandler, hs)) ∧
    (∀ hk, hs.list id = some hk → assignable (typeOf handler) hk.signiture = true →
      (AddHook typeOf assignable hs id handler).1 = none ∧
      getHooks (AddHook typeOf assignable hs id handler).2 id
        = getHooks hs id ++ [handler]) := by
  refine ⟨?_, ?_, ?_⟩
  · intro h; simp [AddHook, h]
  · intro hk h ha; simp [AddHook, h, ha]
  · intro hk h ha
    constructor
    · simp [AddHook, h, ha]
    · simp [AddHook, h, ha, getHooks, hUpdate]

/-- Witness for C4 at a concrete registry: an undeclared id is rejected
with the state untouched, a mismatching handler is rejected with the
state untouched, and a matching handler is appended. -/
theorem addHook_spec_witness :
    AddHook Prod.fst (fun a b => a == b) wHooks 2 (0, 5)
      = (some HookErr.unknownID, wHooks) ∧
    AddHook Prod.fst (fun a b => a == b) wHooks 1 (5, 0)
      = (some HookErr.invalidHandler, wHooks) ∧
    (AddHook Prod.fst (fun a b => a == b) wHooks 1 (0, 7)).1 = none ∧
    getHooks (AddHook Prod.fst (fun a b => a == b) wHooks 1 (0, 7)).2 1 = [(0, 7)] := by
  refine ⟨?_, ?_, ?_, ?_⟩
  · exact (addHook_spec Prod.fst (fun a b => a == b) wHooks 2 (0, 5)).1 rfl
  · exact (addHook_spec Prod.fst (fun a b => a == b) wHooks 1 (5, 0)).2.1 ⟨0, []⟩ rfl rfl
  · exact ((addHook_spec Prod.fst (fun a b => a == b) wHooks 1 (0, 7)).2.2 ⟨0, []⟩ rfl rfl).1
  · exact (((addHook_spec Prod.fst (fun a b => a == b) wHooks 1 (0, 7)).2.2
      ⟨0, []⟩ rfl rfl).2).trans rfl

/-- Claim C8: for a declared hook id, after any sequence of successful
attachments `getHooks` returns the handlers in exactly the order they
were attached; for an id that was never declared, `getHooks` returns the
empty result (Go `nil`) — it is a total function, so it cannot panic. -/
theorem handlers_attach_order {τ ν : Type} (typeOf : ν → τ) (assignable : τ → τ → Bool)
    (hs : Hooks τ ν) (id : Int) (hk : Hook τ ν) (l : List ν)
    (hdecl : hs.list id = some hk)
    (hok : ∀ h ∈ l, assignable (typeOf h) hk.signiture = true) :
    getHooks (attachAll typeOf assignable hs id l) id = getHooks hs id ++ l ∧
    (∀ (hs2 : Hooks τ ν) (id2 : Int), hs2.list id2 = none → getHooks hs2 id2 = []) := by
  constructor
  · exact attachAll_getHooks typeOf assignable id l hs hk hdecl hok
  · intro hs2 id2 h; simp [getHooks, h]

/-- Witness for C8: attaching two matching handlers on the concrete
registry yields them in attach order, and an undeclared id yields `[]`. -/
theorem handlers_attach_order_witness :
    getHooks (attachAll Prod.fst (fun a b => a == b) wHooks 1 [(0, 7), (0, 9)]) 1
      = [(0, 7), (0, 9)] ∧
    getHooks wHooks 5 = [] := by
  constructor
  · exact ((handlers_attach_order Prod.fst (fun a b => a == b) wHooks 1 ⟨0, []⟩
      [(0, 7), (0, 9)] rfl (by decide)).1).trans rfl
  · exact (handlers_attach_order Prod.fst (fun a b => a == b) wHooks 1 ⟨0, []⟩
      [] rfl (by simp)).2 wHooks 5 rfl

/-- Claim C9: `Min`, `Max` and `MinMax` called with a `nil` object record
an invalid result (the message is appended to `errors[name]` and
`HasErrors` becomes true), while called with a non-nil object whose
dynamic type is not `int`, `string` or a slice they return `nil` and
record nothing (the validation state is unchanged). -/
theorem bounds_nil_invalid_unsupported_nothing (v : Validation) (name : String)
    (mn mx : Int) :
    ((Validation.Min v name .vnil mn).1.map ValidationResult.valid = some false ∧
      (Validation.Min v name .vnil mn).2.HasErrors = true ∧
      (Validation.Min v name .vnil mn).2.errors name
        = v.errors name ++ ["Must be larger than " ++ toString mn]) ∧
    ((Validation.Max v name .vnil mx).1.map ValidationResult.valid = some false ∧
      (Validation.Max v name .vnil mx).2.HasErrors = true ∧
      (Validation.Max v name .vnil mx).2.errors name
        = v.errors name ++ ["Must be smaller than " ++ toString mx]) ∧
    ((Validation.MinMax v name .vnil mn mx).1.map ValidationResult.valid = some false ∧
      (Validation.MinMax v name .vnil mn mx).2.HasErrors = true ∧
      (Validation.MinMax v name .vnil mn mx).2.errors name
        = v.errors name ++ ["Must be larger " ++ toString mn ++ " and smaller " ++ toString mx]) ∧
    (∀ obj, unsupportedForBounds obj = true →
      Validation.Min v name obj mn = (none, v) ∧
      Validation.Max v name obj mx = (none, v) ∧
      Validation.MinMax v name obj mn mx = (none, v)) := by
  refine ⟨⟨?_, ?_, ?_⟩, ⟨?_, ?_, ?_⟩, ⟨?_, ?_, ?_⟩, ?_⟩ <;>
    try simp [Validation.Min, Validation.Max, Validation.MinMax, addValidationResult]
  intro obj h
  cases obj <;>
    simp_all [unsupportedForBounds, Validation.Min, Validation.Max, Validation.MinMax]

/-- Witness for C9: on a fresh validation state, `nil` records an error
and the unsupported dynamic types (`time.Time`, any other non-nil
non-`int`/`string`/slice value) record nothing. -/
theorem bounds_nil_invalid_unsupported_nothing_witness :
    (Validation.Min vW "f" .vnil 3).2.HasErrors = true ∧
    (Validation.Min vW "f" .vnil 3).2.errors "f" = ["Must be larger than 3"] ∧
    Validation.Min vW "f" (.vtime false) 3 = (none, vW) ∧
    Validation.Max vW "f" .vother 5 = (none, vW) ∧
    Validation.MinMax vW "f" (.vtime true) 3 5 = (none, vW) := by
  refine ⟨?_, ?_, ?_, ?_, ?_⟩
  · exact (bounds_nil_invalid_unsupported_nothing vW "f" 3 5).1.2.1
  · exact ((bounds_nil_invalid_unsupported_nothing vW "f" 3 5).1.2.2).trans rfl
  · exact ((bounds_nil_invalid_unsupported_nothing vW "f" 3 5).2.2.2
      (.vtime false) rfl).1
  · exact ((bounds_nil_invalid_unsupported_nothing vW "f" 3 5).2.2.2 .vother rfl).2.1
  · exact ((bounds_nil_invalid_unsupported_nothing vW "f" 3 5).2.2.2
      (.vtime true) rfl).2.2

/-- Claim C10: `Required(name, t)` for a `time.Time` value records a
result that is valid exactly when `t.IsZero()` is true — the opposite
polarity of the other supported types, for which a non-zero `int`, a
non-empty `string` or a non-empty slice is what counts as valid. -/
theorem required_time_polarity (v : Validation) (name : String) (b : Bool) :
    (Validation.Required v name (.vtime b)).1.map ValidationResult.valid = some b ∧
    (Validation.Required v name (.vtime b)).2.HasErrors = (v.HasErrors || !b) ∧
    (Validation.Required v name (.vtime b)).2.errors name
      = (if b then v.errors name else v.errors name ++ ["Required"]) ∧
    (∀ n : Int, (Validation.Required v name (.vint n)).1.map ValidationResult.valid
      = some (n != 0)) ∧
    (∀ s : String, (Validation.Required v name (.vstr s)).1.map ValidationResult.valid
      = some (decide (s.utf8ByteSize > 0))) ∧
    (∀ len : Nat, (Validation.Required v name (.vslice len)).1.map ValidationResult.valid
      = some (decide (len > 0))) := by
  refine ⟨?_, ?_, ?_, ?_, ?_, ?_⟩
  · cases b <;> simp [Validation.Required, addValidationResult]
  · cases b <;> simp [Validation.Required, addValidationResult]
  · cases b <;> simp [Validation.Required, addValidationResult]
  · intro n
    by_cases h : n = 0 <;> simp [Validation.Required, addValidationResult, h]
  · intro s
    by_cases h : s.utf8ByteSize > 0 <;> simp [Validation.Required, addValidationResult, h]
  · intro len
    by_cases h : len > 0 <;> simp [Validation.Required, addValidationResult, h]

/-- Claim C6: for every past timestamp (elapsed seconds `s ≥ 0`) the
relative-time helper returns exactly the string of the band the elapsed
time falls into; in particular 45 seconds ago yields `"< 1 minute ago"`
and 3 hours ago yields `"3 hours ago"`. -/
theorem since_thresholds (s : Nat) :
    (s < 60 → since s = "< 1 minute ago") ∧
    (60 ≤ s → s < 120 → since s = "1 minute ago") ∧
    (120 ≤ s → s < 3600 → since s = toString (s / 60) ++ " minutes ago") ∧
    (3600 ≤ s → s < 7200 → since s = "1 hour ago") ∧
    (7200 ≤ s → s < 86400 → since s = toString (s / 3600) ++ " hours ago") ∧
    (86400 ≤ s → s < 172800 → since s = "1 day ago") ∧
    (172800 ≤ s → s < 2592000 → since s = toString (s / 86400) ++ " days ago") ∧
    (2592000 ≤ s → s < 5184000 → since s = "1 month ago") ∧
    (5184000 ≤ s → s < 31104000 → since s = toString (s / 2592000) ++ " months ago") ∧
    (31104000 ≤ s → since s = "> 1 year ago") ∧
    since 45 = "< 1 minute ago" ∧
    since 10800 = "3 hours ago" := by
  refine ⟨?_, ?_, ?_, ?_, ?_, ?_, ?_, ?_, ?_, ?_, by decide, by decide⟩
  · intro h; unfold since; rw [if_pos (by omega)]
  · intro h1 h2; unfold since
    have c60 : ¬ (s < 60) := by omega
    rw [if_neg c60, if_pos (by omega)]
  · intro h1 h2; unfold since
    have c60 : ¬ (s < 60) := by omega
    have c120 : ¬ (s < 60 * 2) := by omega
    rw [if_neg c60, if_neg c120, if_pos (by omega)]
  · intro h1 h2; unfold since
    have c60 : ¬ (s < 60) := by omega
    have c120 : ¬ (s < 60 * 2) := by omega
    have c3600 : ¬ (s < 60 * 60) := by omega
    rw [if_neg c60, if_neg c120, if_neg c3600, if_pos (by omega)]
  · intro h1 h2; unfold since
    have c60 : ¬ (s < 60) := by omega
    have c120 : ¬ (s < 60 * 2) := by omega
    have c3600 : ¬ (s < 60 * 60) := by omega
    have c7200 : ¬ (s < 60 * 60 * 2) := by omega
    rw [if_neg c60, if_neg c120, if_neg c3600, if_neg c7200, if_pos (by omega)]
  · intro h1 h2; unfold since
    have c60 : ¬ (s < 60) := by omega
    have c120 : ¬ (s < 60 * 2) := by omega
    have c3600 : ¬ (s < 60 * 60) := by omega
    have c7200 : ¬ (s < 60 * 60 * 2) := by omega
    have c86400 : ¬ (s < 60 * 60 * 24) := by omega
    rw [if_neg c60, if_neg c120, if_neg c3600, if_neg c7200, if_neg c86400, if_pos (by omega)]
  · intro h1 h2; unfold since
    have c60 : ¬ (s < 60) := by omega
    have c120 : ¬ (s < 60 * 2) := by omega
    have c3600 : ¬ (s < 60 * 60) := by omega
    have c7200 : ¬ (s < 60 * 60 * 2) := by omega
    have c86400 : ¬ (s < 60 * 60 * 24) := by omega
    have c172800 : ¬ (s < 60 * 60 * 24 * 2) := by omega
    rw [if_neg c60, if_neg c120, if_neg c3600, if_neg c7200, if_neg c86400, if_neg c172800, if_pos (by omega)]
  · intro h1 h2; unfold since
    have c60 : ¬ (s < 60) := by omega
    have c120 : ¬ (s < 60 * 2) := by omega
    have c3600 : ¬ (s < 60 * 60) := by omega
    have c7200 : ¬ (s < 60 * 60 * 2) := by omega
    have c86400 : ¬ (s < 60 * 60 * 24) := by omega
    have c172800 : ¬ (s < 60 * 60 * 24 * 2) := by omega
    have c2592000 : ¬ (s < 60 * 60 * 24 * 30) := by omega
    rw [if_neg c60, if_neg c120, if_neg c3600, if_neg c7200, if_neg c86400, if_neg c172800, if_neg c2592000, if_pos (by omega)]
  · intro h1 h2; unfold since
    have c60 : ¬ (s < 60) := by omega
    have c120 : ¬ (s < 60 * 2) := by omega
    have c3600 : ¬ (s < 60 * 60) := by omega
    have c7200 : ¬ (s < 60 * 60 * 2) := by omega
    have c86400 : ¬ (s < 60 * 60 * 24) := by omega
    have c172800 : ¬ (s < 60 * 60 * 24 * 2) := by omega
    have c2592000 : ¬ (s < 60 * 60 * 24 * 30) := by omega
    have c5184000 : ¬ (s < 60 * 60 * 24 * 30 * 2) := by omega
    rw [if_neg c60, if_neg c120, if_neg c3600, if_neg c7200, if_neg c86400, if_neg c172800, if_neg c2592000, if_neg c5184000, if_pos (by omega)]
  · intro h; unfold since
    have c60 : ¬ (s < 60) := by omega
    have c120 : ¬ (s < 60 * 2) := by omega
    have c3600 : ¬ (s < 60 * 60) := by omega
    have c7200 : ¬ (s < 60 * 60 * 2) := by omega
    have c86400 : ¬ (s < 60 * 60 * 24) := by omega
    have c172800 : ¬ (s < 60 * 60 * 24 * 2) := by omega
    have c2592000 : ¬ (s < 60 * 60 * 24 * 30) := by omega
    have c5184000 : ¬ (s < 60 * 60 * 24 * 30 * 2) := by omega
    have c31104000 : ¬ (s < 60 * 60 * 24 * 30 * 12) := by omega
    rw [if_neg c60, if_neg c120, if_neg c3600, if_neg c7200, if_neg c86400, if_neg c172800, if_neg c2592000, if_neg c5184000, if_neg c31104000]

/-- Witness for C6: the two concrete bands of the claim, obtained from
the band theorem at 45 and 10800 seconds. -/
theorem since_thresholds_witness :
    since 45 = "< 1 minute ago" ∧ since 10800 = "3 hours ago" := by
  constructor
  · exact (since_thresholds 45).1 (by decide)
  · exact ((since_thresholds 10800).2.2.2.2.1 (by decide) (by decide)).trans rfl

/-- Claim C7: `paginate` returns the empty string whenever `nPages = 1`;
and for `curPage = 3`, `nPages = 10`, `offset = 1` its output is exactly
the widget with first/previous links (previous pointing to page 2), a
leading ellipsis, numbered links for pages 2, 3 and 4 with page 3 marked
active, a trailing ellipsis, and next/last links (next pointing to
page 4). -/
theorem paginate_spec (curPage offset : Int) (url : String) :
    paginate curPage 1 offset url = "" ∧
    paginate 3 10 1 url =
      "<ul class='pagination'>" ++ "<li><a href='" ++ url
        ++ "/page/first'>&laquo;First</a></li><li><a href='" ++ url ++ "/page/"
        ++ "2" ++ "'>&laquo;</a></li>"
        ++ "<li><span>...</span></li>"
        ++ "<li><a href='" ++ url ++ "/page/" ++ "2" ++ "'>" ++ "2" ++ "</a></li>"
        ++ "<li class='active'><a href='" ++ url ++ "/page/" ++ "3" ++ "'>" ++ "3" ++ "</a></li>"
        ++ "<li><a href='" ++ url ++ "/page/" ++ "4" ++ "'>" ++ "4" ++ "</a></li>"
        ++ "<li><span>...</span></li>"
        ++ "<li><a href='" ++ url ++ "/page/" ++ "4" ++ "'>&raquo;</a></li><li><a href='"
        ++ url ++ "/page/last'>Last&raquo;</a></li>"
        ++ "</ul>" := by
  constructor
  · rfl
  · rfl

/-- Claim C1 counterexample: compiling a root holding the static fragment
`static/page.html` with content `"hello"` (plain text: parse succeeds and
rendering with nil data is the identity) writes the generated file to
`views/_static/page.html`, not to the sibling `views/static/_page.html`
the claim names. -/
theorem static_sibling_counterexample :
    (walkNode (fun _ => none) (fun s => Except.ok s) [] "views" "views" c1fs {}).map
        LoadState.written = Except.ok [("views/_static/page.html", "hello")] ∧
    "views/static/_page.html" ∉ [("views/_static/page.html", "hello")].map Prod.fst := by
  exact ⟨rfl, by decide⟩

/-- Claim C1 (amended): for every static fragment whose source path
relative to the root is `static/<sub>/<name>` with the `.html` extension
(`sub` and `name` any already-normalized path segments: `sub` not hidden
and not the reserved output directory, `name` carrying the extension, the
fragment's logical name free of the `_` marker, so that the source guard
admits emission; parsing succeeds and executing with nil data renders the
content to `r content`), one compilation writes the rendered output to
`_static/<sub>/<name>` under the root — the marker prefix is prepended to
the whole root-relative path, giving a top-level `_static` mirror — and a
second compilation over the tree now containing that generated file
neither re-reads, re-parses nor re-emits it (the `_static` directory is
skipped entirely, so the walk result is identical even though the
generated file is poisoned with a read error). -/
theorem static_mirror_emission (sub name content : String) (r : String → String)
    (hsub_norm : normPath sub = sub) (hname_norm : normPath name = name)
    (hsub_dot : strStartsWith sub "." = false) (hsub_ne : (sub == "_static") = false)
    (hname_html : strEndsWith name ".html" = true)
    (hguard : containsSub ("static/" ++ sub ++ "/" ++ name) "/_" = false) :
    (walkNode (fun _ => none) (fun s => Except.ok (r s)) [] "views" "views"
        (c1fsGen sub name content) {}).map (fun st => (st.written, st.staticTemplates))
      = Except.ok ([("views/_static/" ++ sub ++ "/" ++ name, r content)],
          some [("static/" ++ sub ++ "/" ++ name, content)]) ∧
    (walkNode (fun _ => none) (fun s => Except.ok (r s)) [] "views" "views"
        (c1fsSecond sub name content (r content)) {}).map
        (fun st => (st.written, st.staticTemplates))
      = Except.ok ([("views/_static/" ++ sub ++ "/" ++ name, r content)],
          some [("static/" ++ sub ++ "/" ++ name, content)]) := by
  have h0 : normPath ("views" ++ "/" ++ "static" ++ "/" ++ sub ++ "/" ++ name)
      = "views/static/" ++ sub ++ "/" ++ name := by
    simp only [normPath_append, hsub_norm, hname_norm]
    rfl
  have hpre : strStartsWith ("views/static/" ++ sub ++ "/" ++ name) ("views" ++ "/static/")
      = true := by rfl
  have hdrop : strDrop ("views/static/" ++ sub ++ "/" ++ name) ("views".length + 1)
      = "static/" ++ sub ++ "/" ++ name := by rfl
  have hu : strStartsWith ("static/" ++ sub ++ "/" ++ name) "_" = false := by rfl
  constructor
  · simp only [c1fsGen, walkNode, walkList, visitFile, FsNode.name, h0, hpre, hdrop, hu,
      hsub_dot, hsub_ne, hname_html, hguard]
    rfl
  · simp only [c1fsSecond, walkNode, walkList, visitFile, FsNode.name, h0, hpre, hdrop, hu,
      hsub_dot, hsub_ne, hname_html, hguard]
    rfl

/-- Witness for C1 (amended) at the concrete fragment `static/x/y.html`
with content `"hello"` and identity rendering: first compilation emits
`views/_static/x/y.html`, and the second compilation over the tree with
the generated file present gives the identical result. -/
theorem static_mirror_emission_witness :
    (walkNode (fun _ => none) (fun s => Except.ok s) [] "views" "views"
        (c1fsGen "x" "y.html" "hello") {}).map (fun st => (st.written, st.staticTemplates))
      = Except.ok ([("views/_static/x/y.html", "hello")],
          some [("static/x/y.html", "hello")]) ∧
    (walkNode (fun _ => none) (fun s => Except.ok s) [] "views" "views"
        (c1fsSecond "x" "y.html" "hello" "hello") {}).map
        (fun st => (st.written, st.staticTemplates))
      = Except.ok ([("views/_static/x/y.html", "hello")],
          some [("static/x/y.html", "hello")]) := by
  constructor
  · exact (static_mirror_emission "x" "y.html" "hello" (fun s => s)
      (by rfl) (by rfl) (by rfl) (by rfl) (by rfl) (by rfl)).1
  · exact (static_mirror_emission "x" "y.html" "hello" (fun s => s)
      (by rfl) (by rfl) (by rfl) (by rfl) (by rfl) (by rfl)).2

/-- Claim C2: `loadTemplates` leaves the installed compiled set exactly
as it was when the walk ends in any (read or parse) error — the error is
returned to the caller and every previously compiled fragment still
resolves — and installs the newly built group exactly when the walk
completes without error. -/
theorem loadTemplates_no_partial_swap {Req A : Type} (parseRes : String → Option String)
    (renderRes : String → Except String String) (tm : TemplateManager Req A)
    (root : FsNode) :
    (∀ e, walkNode parseRes renderRes tm.beforeParse tm.directory tm.directory root {}
        = Except.error e →
      loadTemplates parseRes renderRes tm root = (Except.error e, tm) ∧
      ∀ name, getTemplate (loadTemplates parseRes renderRes tm root).2 name
        = getTemplate tm name) ∧
    (∀ st, walkNode parseRes renderRes tm.beforeParse tm.directory tm.directory root {}
        = Except.ok st →
      loadTemplates parseRes renderRes tm root
        = (Except.ok (), { tm with tmplList := st.templates })) := by
  constructor
  · intro e he
    constructor
    · simp [loadTemplates, he]
    · intro name; simp [loadTemplates, he]
  · intro st hst; simp [loadTemplates, hst]

/-- Witness for C2: a parse error in one fragment leaves the previously
installed set queryable and reports the error, while an error-free walk
installs the new group. -/
theorem loadTemplates_no_partial_swap_witness :
    loadTemplates parseBad (fun s => Except.ok s) tmPre fsBad
      = (Except.error "parse error", tmPre) ∧
    getTemplate (loadTemplates parseBad (fun s => Except.ok s) tmPre fsBad).2 "index.html"
      = some ("index.html", "old") ∧
    loadTemplates parseBad (fun s => Except.ok s) tmPre fsGood
      = (Except.ok (), { tmPre with tmplList := some [("a.html", "A")] }) := by
  refine ⟨?_, ?_, ?_⟩
  · exact ((loadTemplates_no_partial_swap parseBad (fun s => Except.ok s) tmPre fsBad).1
      "parse error" rfl).1
  · exact (((loadTemplates_no_partial_swap parseBad (fun s => Except.ok s) tmPre fsBad).1
      "parse error" rfl).2 "index.html").trans rfl
  · exact (loadTemplates_no_partial_swap parseBad (fun s => Except.ok s) tmPre fsGood).2
      ⟨some [("a.html", "A")], none, [], ["views"]⟩ rfl

/-- Claim C3 counterexample: with the compiled set registering the
fragment `a/b.html` (the walk-normalized name), looking up `a\b.html`
returns nothing, although a fragment is registered under
`normalize("a\b.html")` (lower-casing plus backslash replacement, the
logical-name normalization `normPath`): `getTemplate` lower-cases only. -/
theorem lookup_backslash_counterexample :
    getTemplate c3tm "a\\b.html" = none ∧
    normPath "a\\b.html" = "a/b.html" ∧
    lookupGroup [("a/b.html", "x")] (normPath "a\\b.html") = some ("a/b.html", "x") := by
  exact ⟨rfl, rfl, rfl⟩

/-- Claim C3 (amended): `getTemplate` returns the fragment registered
under `strings.ToLower(name)` — lower-casing only, backslashes are not
replaced at lookup time — and returns an absent result exactly when no
compiled set is installed yet or no fragment matches the lowered name. -/
theorem getTemplate_lowercase_lookup {Req A : Type} (tm : TemplateManager Req A)
    (name : String) :
    (tm.tmplList = none → getTemplate tm name = none) ∧
    (∀ l, tm.tmplList = some l →
      getTemplate tm name = lookupGroup l (strLower name) ∧
      (getTemplate tm name = none ↔ ∀ p ∈ l, p.1 ≠ strLower name)) := by
  constructor
  · intro h; simp [getTemplate, h]
  · intro l h
    constructor
    · simp [getTemplate, h]
    · simp [getTemplate, h, lookupGroup, List.find?_eq_none, List.mem_reverse]

/-- Witness for C3: no installed set resolves nothing, and a lookup on
the concrete set goes through the lower-cased name. -/
theorem getTemplate_lowercase_lookup_witness :
    getTemplate tmNone "index.html" = none ∧
    getTemplate c3tm "A/B.html" = some ("a/b.html", "x") := by
  constructor
  · exact (getTemplate_lowercase_lookup tmNone "index.html").1 rfl
  · exact (((getTemplate_lowercase_lookup c3tm "A/B.html").2 [("a/b.html", "x")] rfl).1).trans rfl

/-- Claim C5: `RenderTemplate` fails with the template-not-found error
exactly when the lookup yields no fragment; otherwise it folds every
before-render handler over the argument map in attach order (each handler
receiving the request, the resolved fragment and the arguments; the
pipeline argument of the Go signature is the manager itself) before the
fragment is executed against the arguments, and an execution failure is
returned as a wrapped error that keeps the original cause. -/
theorem renderTemplate_spec {Req A : Type}
    (exec : (String × String) → A → Except String String)
    (tm : TemplateManager Req A) (req : Req) (name : String) (args : A) :
    (RenderTemplate exec tm req name args
        = Except.error ("can't find template '" ++ strLower name ++ "'")
      ↔ getTemplate tm name = none) ∧
    (∀ t, getTemplate tm name = some t →
      RenderTemplate exec tm req name args =
        match exec t (tm.beforeRender.foldl (fun a h => h req t a) args) with
        | .error e => Except.error ("failed to render template. Reason: " ++ e)
        | .ok out => Except.ok out) := by
  have hmain : ∀ t, getTemplate tm name = some t →
      RenderTemplate exec tm req name args =
        match exec t (tm.beforeRender.foldl (fun a h => h req t a) args) with
        | .error e => Except.error ("failed to render template. Reason: " ++ e)
        | .ok out => Except.ok out := by
    intro t ht
    simp [RenderTemplate, ht]
  refine ⟨⟨?_, ?_⟩, hmain⟩
  · intro h
    cases hg : getTemplate tm name with
    | none => rfl
    | some t =>
      rw [hmain t hg] at h
      cases hex : exec t (tm.beforeRender.foldl (fun a h => h req t a) args) with
      | error e =>
        rw [hex] at h
        simp only [Except.error.injEq] at h
        exact absurd h (notFound_ne_renderFail (strLower name) e).symm
      | ok out =>
        rw [hex] at h
        exact absurd h (by simp)
  · intro h
    simp [RenderTemplate, h]

/-- Witness for C5: on the concrete manager, a missing name yields the
not-found error; a present name fires the two handlers in attach order
(`(3+1)*2 = 8`) before execution; a failing execution is wrapped and
keeps its cause. -/
theorem renderTemplate_spec_witness :
    RenderTemplate execShow tmR () "missing.html" 3
      = Except.error "can't find template 'missing.html'" ∧
    RenderTemplate execShow tmR () "INDEX.html" 3 = Except.ok "index.html|8" ∧
    RenderTemplate execFail tmR () "index.html" 3
      = Except.error "failed to render template. Reason: boom" := by
  refine ⟨?_, ?_, ?_⟩
  · exact (renderTemplate_spec execShow tmR () "missing.html" 3).1.mpr rfl
  · exact ((renderTemplate_spec execShow tmR () "INDEX.html" 3).2
      ("index.html", "src") rfl).trans rfl
  · exact ((renderTemplate_spec execFail tmR () "index.html" 3).2
      ("index.html", "src") rfl).trans rfl

end Amber

